import Mathlib

/-!
Verification of the metrics API controller (`monasca/v2/reference/metrics.py`).

The source is Python 2: metric payloads are decoded JSON values, and the
validator inspects them with `isinstance` checks and bare `assert`
statements.  We embed the relevant fragment of the Python 2 value universe
as `PyVal`, the exceptions the validator can raise as `PyExc`, and translate
each method of the `Metrics` controller class into a Lean function.
Collaborators that live outside this file in the repository (the `helpers`
module, the metrics transform, the queue and repository drivers) are
modelled from the specification and marked as such.
-/

set_option maxRecDepth 8000

namespace Monasca

/-- Fragment of the Python 2 value universe reachable from decoded JSON
bodies (plus the numeric tower distinctions `int` / `long` / `float` /
`complex` that the validator's `isinstance` checks observe).  `str` covers
both `str` and `unicode`: every `isinstance` check in the source lists the
two together.  The payloads of `float` and `complex` are abstract tags: the
validator only ever inspects the runtime type of a number, never its
magnitude. -/
inductive PyVal where
  | str : String → PyVal
  | int : Int → PyVal
  | long : Int → PyVal
  | float : Nat → PyVal
  | complex : Nat → PyVal
  | none : PyVal
  | list : List PyVal → PyVal
  | dict : List (PyVal × PyVal) → PyVal

/-- Exceptions that the validator body can raise: `KeyError` from a missing
subscript (its Python 2 `.message` is the key), `TypeError` from a bad
subscript or iteration, and `AssertionError` from a bare `assert`
(its `.message` is the empty string). -/
inductive PyExc where
  | keyError : String → PyExc
  | typeError : String → PyExc
  | assertionError : PyExc
  deriving DecidableEq, Repr

/-- The Python 2 `.message` attribute of an exception, which is what
`_validate_metrics` and `_send_metrics` forward to the client. -/
def excMessage : PyExc → String
  | .keyError k => k
  | .typeError m => m
  | .assertionError => ""

/-- Whether a Python value is the given text key (the only values equal to a
`str` under Python equality are `str` / `unicode` with the same contents). -/
def isStrKey (v : PyVal) (s : String) : Bool :=
  match v with
  | .str t => t == s
  | _ => false

/-- First value stored under the text key `k` in an association-list dict. -/
def findPair (pairs : List (PyVal × PyVal)) (k : String) : Option PyVal :=
  match pairs with
  | [] => Option.none
  | p :: rest => if isStrKey p.1 k then some p.2 else findPair rest k

/-- `container[k]` for a text key `k`: dict lookup, `KeyError` when absent,
`TypeError` when the container does not support text subscripts. -/
def getItem (container : PyVal) (k : String) : Except PyExc PyVal :=
  match container with
  | .dict pairs =>
      match findPair pairs k with
      | some v => .ok v
      | Option.none => .error (.keyError k)
  | .list _ => .error (.typeError "list indices must be integers, not str")
  | .str _ => .error (.typeError "string indices must be integers, not str")
  | _ => .error (.typeError "object is not subscriptable")

/-- `container[key]` as used inside the dimensions loop.  Every subscript in
the validator follows a successful text assertion on `key`, so only the
text-key cases arise; a dict subscripted with a non-text key is unreachable
there and mapped to a `TypeError` placeholder. -/
def pySubscript (container key : PyVal) : Except PyExc PyVal :=
  match container, key with
  | .dict pairs, .str s =>
      match findPair pairs s with
      | some v => .ok v
      | Option.none => .error (.keyError s)
  | .dict _, _ => .error (.typeError "unreachable non-text dict key")
  | .list _, _ => .error (.typeError "list indices must be integers, not str")
  | .str _, _ => .error (.typeError "string indices must be integers, not str")
  | _, _ => .error (.typeError "object is not subscriptable")

/-- Python `len`. -/
def pyLen : PyVal → Except PyExc Nat
  | .str s => .ok s.length
  | .list l => .ok l.length
  | .dict pairs => .ok pairs.length
  | _ => .error (.typeError "object has no length")

/-- Python iteration, as in `for d in container`: a dict yields its keys, a
list its elements, a string its characters (as one-character strings). -/
def pyIter : PyVal → Except PyExc (List PyVal)
  | .dict pairs => .ok (pairs.map Prod.fst)
  | .list l => .ok l
  | .str s => .ok (s.toList.map (fun c => PyVal.str (String.mk [c])))
  | _ => .error (.typeError "object is not iterable")

/-- Membership test `k in container` for a text `k`. -/
def strContains (s sub : String) : Bool :=
  (List.range (s.length + 1)).any (fun i => sub.isPrefixOf (s.drop i))

/-- Python `k in container` for a text key `k`: key membership for dicts,
element membership for lists, substring test for strings. -/
def pyContains (container : PyVal) (k : String) : Except PyExc Bool :=
  match container with
  | .dict pairs => .ok (pairs.any (fun p => isStrKey p.1 k))
  | .list l => .ok (l.any (fun v => isStrKey v k))
  | .str s => .ok (strContains s k)
  | _ => .error (.typeError "argument is not iterable")

/-- A bare Python `assert b`: raises `AssertionError` (with an empty
message) when the condition is false. -/
def assertPy (b : Bool) : Except PyExc Unit :=
  if b then .ok () else .error .assertionError

/-- `isinstance(v, (str, unicode))`. -/
def isText : PyVal → Bool
  | .str _ => true
  | _ => false

/-- `isinstance(v, (int, float))` — the timestamp check (`long` and
`complex` are not listed there in the source). -/
def isTimestampType : PyVal → Bool
  | .int _ => true
  | .float _ => true
  | _ => false

/-- `isinstance(v, (int, long, float, complex))` — the value check. -/
def isValueType : PyVal → Bool
  | .int _ => true
  | .long _ => true
  | .float _ => true
  | .complex _ => true
  | _ => false

namespace Metrics

/-- The body of the `for d in metric['dimensions']` loop of
`_validate_single_metric` (source lines 77-81), run over the iteration
order `ks` of the dimensions object `dims`: each key must be text of length
at most 255, and so must the value found by re-subscripting `dims` at that
key. -/
def checkDims (dims : PyVal) : List PyVal → Except PyExc Unit
  | [] => .ok ()
  | d :: ks =>
    match assertPy (isText d) with
    | .error e => .error e
    | .ok _ =>
    match pyLen d with
    | .error e => .error e
    | .ok dlen =>
    match assertPy (decide (dlen ≤ 255)) with
    | .error e => .error e
    | .ok _ =>
    match pySubscript dims d with
    | .error e => .error e
    | .ok v =>
    match assertPy (isText v) with
    | .error e => .error e
    | .ok _ =>
    match pyLen v with
    | .error e => .error e
    | .ok vlen =>
    match assertPy (decide (vlen ≤ 255)) with
    | .error e => .error e
    | .ok _ => checkDims dims ks

/-- `Metrics._validate_single_metric` (source lines 71-81), translated
assert by assert; the `Except` error is the Python exception escaping the
method. -/
def _validate_single_metric (metric : PyVal) : Except PyExc Unit :=
  match getItem metric "name" with
  | .error e => .error e
  | .ok name =>
  match assertPy (isText name) with
  | .error e => .error e
  | .ok _ =>
  match pyLen name with
  | .error e => .error e
  | .ok nlen =>
  match assertPy (decide (nlen ≤ 64)) with
  | .error e => .error e
  | .ok _ =>
  match getItem metric "timestamp" with
  | .error e => .error e
  | .ok ts =>
  match assertPy (isTimestampType ts) with
  | .error e => .error e
  | .ok _ =>
  match getItem metric "value" with
  | .error e => .error e
  | .ok v =>
  match assertPy (isValueType v) with
  | .error e => .error e
  | .ok _ =>
  match pyContains metric "dimensions" with
  | .error e => .error e
  | .ok hasDims =>
    if hasDims then
      match getItem metric "dimensions" with
      | .error e => .error e
      | .ok dims =>
      match pyIter dims with
      | .error e => .error e
      | .ok ks => checkDims dims ks
    else .ok ()

end Metrics

/-- Client-visible HTTP error conditions raised by the controller (the
falcon exception classes used by the source, with their constructor
arguments: title, description, and for `serviceUnavailable` the numeric
`retry_after` hint). -/
inductive HTTPError where
  | badRequest : String → String → HTTPError
  | unauthorized : String → HTTPError
  | forbidden : String → HTTPError
  | serviceUnavailable : String → String → Nat → HTTPError
  | internalServerError : String → String → HTTPError
  deriving DecidableEq, Repr

/-- Errors reported as the caller's fault (HTTP 4xx). -/
def isClientError : HTTPError → Bool
  | .badRequest _ _ => true
  | .unauthorized _ => true
  | .forbidden _ => true
  | _ => false

/-- Forbidden/Unauthorized outcomes. -/
def isAuthFailure : HTTPError → Bool
  | .unauthorized _ => true
  | .forbidden _ => true
  | _ => false

/-- `falcon.HTTP_204`. -/
def HTTP_204 : String := "204 No Content"

/-- `falcon.HTTP_200`. -/
def HTTP_200 : String := "200 OK"

/-- `isinstance(metrics, list)`. -/
def isPyList : PyVal → Bool
  | .list _ => true
  | _ => false

namespace Metrics

/-- The `for metric in metrics` loop of `_validate_metrics` (source lines
62-64): each element is validated in order and the first exception aborts
the loop. -/
def validateList : List PyVal → Except PyExc Unit
  | [] => .ok ()
  | m :: ms =>
    match _validate_single_metric m with
    | .error e => .error e
    | .ok _ => validateList ms

/-- `Metrics._validate_metrics` (source lines 59-69): a list is validated
element by element, anything else is validated as a single metric, and any
exception is caught and re-raised as `falcon.HTTPBadRequest('Bad request',
ex.message)`. -/
def _validate_metrics (metrics : PyVal) : Except HTTPError Unit :=
  match
    (match metrics with
     | .list ms => validateList ms
     | m => _validate_single_metric m) with
  | .ok _ => .ok ()
  | .error ex => .error (.badRequest "Bad request" (excMessage ex))

end Metrics

/-- Text of length at most `n`. -/
def textAtMost (v : PyVal) (n : Nat) : Bool :=
  match v with
  | .str s => s.length ≤ n
  | _ => false

/-- Whether a Python value is a real number in the mathematical sense used
by the claim: an integer (`int` or `long`) or a float, but not a complex
number and not text. -/
def isRealNumber : PyVal → Bool
  | .int _ => true
  | .long _ => true
  | .float _ => true
  | _ => false

/-- The per-metric bounds exactly as the claim states them: the name is
text of length at most 64, the timestamp and the value are real numbers,
and when a dimensions mapping is present every key and every value of it is
text of length at most 255. -/
def metricWithinBoundsClaimed (metric : PyVal) : Bool :=
  match metric with
  | .dict pairs =>
      (match findPair pairs "name" with
       | some v => textAtMost v 64
       | Option.none => false) &&
      (match findPair pairs "timestamp" with
       | some v => isRealNumber v
       | Option.none => false) &&
      (match findPair pairs "value" with
       | some v => isRealNumber v
       | Option.none => false) &&
      (match findPair pairs "dimensions" with
       | some (.dict dps) =>
           dps.all (fun p => textAtMost p.1 255 && textAtMost p.2 255)
       | some _ => false
       | Option.none => true)
  | _ => false

/-- The per-metric bounds the code actually enforces (the amended claim):
the name is text of length at most 64, the timestamp is an `int` or a
`float` (a `long` is rejected), the value is any of `int`, `long`, `float`
or `complex` (a complex number is accepted), and a `dimensions` entry, when
present, is either a mapping all of whose keys and values are text of
length at most 255, or an empty list, or an empty string (iterating an
empty object performs no checks). -/
def metricWithinBoundsAmended (metric : PyVal) : Bool :=
  match metric with
  | .dict pairs =>
      (match findPair pairs "name" with
       | some v => textAtMost v 64
       | Option.none => false) &&
      (match findPair pairs "timestamp" with
       | some v => isTimestampType v
       | Option.none => false) &&
      (match findPair pairs "value" with
       | some v => isValueType v
       | Option.none => false) &&
      (match findPair pairs "dimensions" with
       | some (.dict dps) =>
           dps.all (fun p => textAtMost p.1 255 && textAtMost p.2 255)
       | some (.list l) => l.isEmpty
       | some (.str s) => s.length == 0
       | some _ => false
       | Option.none => true)
  | _ => false

/-- The text keys of an association-list dict, in order. -/
def strKeysOf : List (PyVal × PyVal) → List String
  | [] => []
  | p :: rest =>
    match p.1 with
    | .str s => s :: strKeysOf rest
    | _ => strKeysOf rest

/-- No duplicates in a list of strings. -/
def strNodup : List String → Bool
  | [] => true
  | s :: rest => (!rest.contains s) && strNodup rest

/-- A metric state representable by an actual Python dict: a Python dict
cannot store the same key twice, so the dimensions dict (when present)
carries pairwise-distinct text keys.  The embedding uses association lists,
which also admit duplicated keys; this predicate excludes those junk
states. -/
def pyRepresentable (metric : PyVal) : Bool :=
  match metric with
  | .dict pairs =>
      match findPair pairs "dimensions" with
      | some (.dict dps) => strNodup (strKeysOf dps)
      | _ => true
  | _ => true

lemma string_mk_length (data : List Char) : (String.mk data).length = data.length := rfl

lemma string_mk_toList (data : List Char) : (String.mk data).toList = data := rfl

lemma isStrKey_eq_true {v : PyVal} {s : String} (h : isStrKey v s = true) :
    v = PyVal.str s := by
  cases v <;> simp [isStrKey] at h ⊢
  exact h

lemma mem_strKeysOf {dps : List (PyVal × PyVal)} {p : PyVal × PyVal}
    (hp : p ∈ dps) {s : String} (hs : p.1 = PyVal.str s) : s ∈ strKeysOf dps := by
  induction dps with
  | nil => cases hp
  | cons q rest ih =>
    rcases List.mem_cons.mp hp with rfl | hmem
    · rw [strKeysOf, hs]
      exact List.mem_cons_self _ _
    · rw [strKeysOf]
      split
      · exact List.mem_cons_of_mem _ (ih hmem)
      · exact ih hmem

lemma strNodup_cons {q : PyVal × PyVal} {dps : List (PyVal × PyVal)}
    (h : strNodup (strKeysOf (q :: dps)) = true) :
    strNodup (strKeysOf dps) = true := by
  rw [strKeysOf] at h
  revert h
  split
  · intro h
    rw [strNodup, Bool.and_eq_true] at h
    exact h.2
  · exact id

/-- In a dict whose text keys are pairwise distinct, looking up the key of
any stored pair returns the value of that very pair. -/
lemma strNodup_findPair :
    ∀ (dps : List (PyVal × PyVal)), strNodup (strKeysOf dps) = true →
      ∀ p ∈ dps, ∀ s, p.1 = PyVal.str s → findPair dps s = some p.2 := by
  intro dps
  induction dps with
  | nil =>
    intro _ p hp
    cases hp
  | cons q rest ih =>
    intro h p hp s hs
    rcases List.mem_cons.mp hp with rfl | hmem
    · rw [findPair]
      have hqs : isStrKey p.1 s = true := by
        rw [hs, isStrKey]
        simp
      rw [hqs]
      simp
    · rw [findPair]
      cases hq : isStrKey q.1 s with
      | false =>
        simp only [Bool.false_eq_true, if_false]
        exact ih (strNodup_cons h) p hmem s hs
      | true =>
        exfalso
        have hq1 : q.1 = PyVal.str s := isStrKey_eq_true hq
        have hkeys : strKeysOf (q :: rest) = s :: strKeysOf rest := by
          rw [strKeysOf, hq1]
        rw [hkeys, strNodup, Bool.and_eq_true] at h
        have hsmem : s ∈ strKeysOf rest := mem_strKeysOf hmem hs
        have hcont : (strKeysOf rest).contains s = true := by
          simpa using hsmem
        rw [hcont] at h
        simp at h

lemma any_isStrKey_eq (pairs : List (PyVal × PyVal)) (k : String) :
    pairs.any (fun p => isStrKey p.1 k) = (findPair pairs k).isSome := by
  induction pairs with
  | nil => rfl
  | cons p rest ih =>
    rw [List.any_cons, findPair]
    cases h : isStrKey p.1 k <;> simp [h, ih]

/-- A non-empty list never passes the dimensions loop: even when an element
is short text, subscripting the list with it raises `TypeError`. -/
lemma checkDims_list_ne_ok (l : List PyVal) (d : PyVal) (ds : List PyVal) :
    Metrics.checkDims (PyVal.list l) (d :: ds) ≠ .ok () := by
  rw [Metrics.checkDims]
  cases d <;> simp [assertPy, isText, pyLen, pySubscript]
  split <;> simp

/-- A non-empty string never passes the dimensions loop: each character is
one-character text, but subscripting a string with it raises `TypeError`. -/
lemma checkDims_str_ne_ok (s : String) (d : PyVal) (ds : List PyVal) :
    Metrics.checkDims (PyVal.str s) (d :: ds) ≠ .ok () := by
  rw [Metrics.checkDims]
  cases d <;> simp [assertPy, isText, pyLen, pySubscript]
  split <;> simp

/-- The dimensions loop over the keys of a duplicate-free dict succeeds
exactly when every stored key and value is text of length at most 255. -/
lemma checkDims_ok_iff (dall : List (PyVal × PyVal)) :
    ∀ (dps : List (PyVal × PyVal)),
    (∀ p ∈ dps, ∀ s, p.1 = PyVal.str s → findPair dall s = some p.2) →
    (Metrics.checkDims (PyVal.dict dall) (dps.map Prod.fst) = .ok ()
      ↔ dps.all (fun p => textAtMost p.1 255 && textAtMost p.2 255) = true) := by
  intro dps
  induction dps with
  | nil =>
    intro _
    simp [Metrics.checkDims]
  | cons p rest ih =>
    intro H
    have Hrest := fun q hq => H q (List.mem_cons_of_mem _ hq)
    rw [List.map_cons, Metrics.checkDims, List.all_cons]
    cases hp1 : p.1
    case str s =>
      have hfind := H p (List.mem_cons_self _ _) s hp1
      by_cases h255 : s.length ≤ 255
      · cases hp2 : p.2
        next u =>
          by_cases hu : u.length ≤ 255
          · simpa [assertPy, isText, pyLen, pySubscript, hfind, h255, hu, textAtMost,
              hp1, hp2] using ih Hrest
          · simp [assertPy, isText, pyLen, pySubscript, hfind, h255, hu, textAtMost,
              hp1, hp2]
        all_goals simp [assertPy, isText, pyLen, pySubscript, hfind, h255, textAtMost,
          hp1, hp2]
      · simp [assertPy, isText, pyLen, h255, textAtMost, hp1]
    all_goals simp [assertPy, isText, textAtMost, hp1]

/-- Concrete metric values used in counterexamples and witnesses. -/
def mComplexValue : PyVal :=
  .dict [(.str "name", .str "cpu"), (.str "timestamp", .int 1),
         (.str "value", .complex 0)]

/-- A well-formed metric within every bound. -/
def mGood : PyVal :=
  .dict [(.str "name", .str "cpu"), (.str "timestamp", .int 1),
         (.str "value", .float 0),
         (.str "dimensions", .dict [(.str "host", .str "a")])]

/-- C1 (amended).  For a metric representable as a Python dict (no
duplicated dimension keys), `_validate_single_metric` accepts it exactly
when: its name is text of length at most 64, its timestamp is an `int` or
`float` (`long` timestamps are rejected), its value is an `int`, `long`,
`float` or `complex` (complex values are accepted), and its `dimensions`
entry, when present, is a mapping whose keys and values are all text of
length at most 255 — or an empty list or empty string, which iterate to
nothing and pass vacuously. -/
theorem metrics_C1 (metric : PyVal) (h : pyRepresentable metric = true) :
    Metrics._validate_single_metric metric = .ok ()
      ↔ metricWithinBoundsAmended metric = true := by
  cases metric
  case dict pairs =>
    rw [Metrics._validate_single_metric, metricWithinBoundsAmended]
    rcases hname : findPair pairs "name" with _ | nv
    · simp [getItem, hname]
    cases hnv : nv
    case str ns =>
      by_cases h64 : ns.length ≤ 64
      · rcases hts : findPair pairs "timestamp" with _ | tv
        · simp [getItem, hname, hnv, hts, assertPy, isText, pyLen, h64, textAtMost]
        by_cases htv : isTimestampType tv = true
        · rcases hv : findPair pairs "value" with _ | vv
          · simp [getItem, hname, hnv, hts, hv, assertPy, isText, pyLen, h64, htv,
              textAtMost]
          by_cases hvv : isValueType vv = true
          · rcases hdims : findPair pairs "dimensions" with _ | dv
            · simp [getItem, hname, hnv, hts, hv, hdims, assertPy, isText, pyLen, h64,
                htv, hvv, textAtMost, pyContains, any_isStrKey_eq]
            rcases hdv : dv with s | i | il | fl | co | _ | l | dps
            · rcases s with ⟨data⟩
              rcases data with _ | ⟨c, cs⟩
              · simp [getItem, hname, hnv, hts, hv, hdims, hdv, assertPy, isText,
                  pyLen, h64, htv, hvv, textAtMost, pyContains, any_isStrKey_eq,
                  pyIter, Metrics.checkDims, string_mk_length, string_mk_toList]
              · simp [getItem, hname, hnv, hts, hv, hdims, hdv, assertPy, isText,
                  pyLen, h64, htv, hvv, textAtMost, pyContains, any_isStrKey_eq,
                  pyIter, checkDims_str_ne_ok, string_mk_length, string_mk_toList]
            · simp [getItem, hname, hnv, hts, hv, hdims, hdv, assertPy, isText, pyLen,
                h64, htv, hvv, textAtMost, pyContains, any_isStrKey_eq, pyIter]
            · simp [getItem, hname, hnv, hts, hv, hdims, hdv, assertPy, isText, pyLen,
                h64, htv, hvv, textAtMost, pyContains, any_isStrKey_eq, pyIter]
            · simp [getItem, hname, hnv, hts, hv, hdims, hdv, assertPy, isText, pyLen,
                h64, htv, hvv, textAtMost, pyContains, any_isStrKey_eq, pyIter]
            · simp [getItem, hname, hnv, hts, hv, hdims, hdv, assertPy, isText, pyLen,
                h64, htv, hvv, textAtMost, pyContains, any_isStrKey_eq, pyIter]
            · simp [getItem, hname, hnv, hts, hv, hdims, hdv, assertPy, isText, pyLen,
                h64, htv, hvv, textAtMost, pyContains, any_isStrKey_eq, pyIter]
            · rcases l with _ | ⟨d, ds⟩
              · simp [getItem, hname, hnv, hts, hv, hdims, hdv, assertPy, isText,
                  pyLen, h64, htv, hvv, textAtMost, pyContains, any_isStrKey_eq,
                  pyIter, Metrics.checkDims]
              · simp [getItem, hname, hnv, hts, hv, hdims, hdv, assertPy, isText,
                  pyLen, h64, htv, hvv, textAtMost, pyContains, any_isStrKey_eq,
                  pyIter, checkDims_list_ne_ok]
            · have hnd : strNodup (strKeysOf dps) = true := by
                simpa [pyRepresentable, hdims, hdv] using h
              have hiff := checkDims_ok_iff dps dps (strNodup_findPair dps hnd)
              simp [getItem, hname, hnv, hts, hv, hdims, hdv, assertPy, isText, pyLen,
                h64, htv, hvv, textAtMost, pyContains, any_isStrKey_eq, pyIter, hiff]
          · simp [getItem, hname, hnv, hts, hv, assertPy, isText, pyLen, h64, htv,
              hvv, textAtMost]
        · simp [getItem, hname, hnv, hts, assertPy, isText, pyLen, h64, htv, textAtMost]
      · simp [getItem, hname, hnv, assertPy, isText, pyLen, h64, textAtMost]
    all_goals simp [getItem, hname, assertPy, isText, textAtMost, hnv]
  all_goals simp [Metrics._validate_single_metric, getItem, metricWithinBoundsAmended]

/-- C1 counterexample: the metric with name "cpu", timestamp 1 and a complex
value passes validation although a complex number is not a real number, so
the claimed equivalence (accept iff name/timestamp/value/dimension bounds,
with the value a real number) is false at this input. -/
theorem metrics_C1_counterexample :
    Metrics._validate_single_metric mComplexValue = .ok ()
      ∧ metricWithinBoundsClaimed mComplexValue = false :=
  ⟨rfl, rfl⟩

/-- Witness for C1 at a concrete in-bounds metric. -/
theorem metrics_C1_witness :
    pyRepresentable mGood = true ∧ Metrics._validate_single_metric mGood = .ok () :=
  ⟨rfl, (metrics_C1 mGood rfl).mpr rfl⟩

lemma validateList_ok_iff (ms : List PyVal) :
    Metrics.validateList ms = .ok ()
      ↔ ∀ m ∈ ms, Metrics._validate_single_metric m = .ok () := by
  induction ms with
  | nil => simp [Metrics.validateList]
  | cons m rest ih =>
    rw [Metrics.validateList]
    cases hm : Metrics._validate_single_metric m with
    | error e => simp [hm]
    | ok u =>
      cases u
      simp [hm, ih]

/-- The element loop stops at the first failing metric and propagates its
exception, whatever comes after. -/
lemma validateList_first_error (ms1 : List PyVal) (m : PyVal) (ms2 : List PyVal)
    (ex : PyExc) (h1 : ∀ x ∈ ms1, Metrics._validate_single_metric x = .ok ())
    (h2 : Metrics._validate_single_metric m = .error ex) :
    Metrics.validateList (ms1 ++ m :: ms2) = .error ex := by
  induction ms1 with
  | nil => simp [Metrics.validateList, h2]
  | cons y ys ih =>
    have hy := h1 y (by simp)
    rw [List.cons_append, Metrics.validateList, hy]
    exact ih (fun x hx => h1 x (by simp [hx]))

lemma validate_metrics_list (ms : List PyVal) :
    Metrics._validate_metrics (PyVal.list ms)
      = match Metrics.validateList ms with
        | .ok _ => .ok ()
        | .error ex => .error (.badRequest "Bad request" (excMessage ex)) := rfl

lemma validate_metrics_single (m : PyVal) (hm : isPyList m = false) :
    Metrics._validate_metrics m
      = match Metrics._validate_single_metric m with
        | .ok _ => .ok ()
        | .error ex => .error (.badRequest "Bad request" (excMessage ex)) := by
  cases m <;> first | rfl | simp [isPyList] at hm

lemma validate_metrics_eq (metrics : PyVal) :
    Metrics._validate_metrics metrics
      = match (match metrics with
               | .list ms => Metrics.validateList ms
               | m => Metrics._validate_single_metric m) with
        | .ok _ => .ok ()
        | .error ex => .error (.badRequest "Bad request" (excMessage ex)) := rfl

lemma validate_metrics_cases (metrics : PyVal) :
    Metrics._validate_metrics metrics = .ok ()
      ∨ ∃ d, Metrics._validate_metrics metrics
          = .error (.badRequest "Bad request" d) := by
  rw [validate_metrics_eq]
  generalize (match metrics with
              | PyVal.list ms => Metrics.validateList ms
              | m => Metrics._validate_single_metric m) = r
  cases r
  · exact Or.inr ⟨_, rfl⟩
  · exact Or.inl rfl

/-- C8: `_validate_metrics` accepts either a single metric object or a list;
the empty list passes; a list is accepted exactly when every element passes
the single-metric check, validated in order with the first failure aborting
and reporting the whole batch. -/
theorem metrics_C8 :
    (Metrics._validate_metrics (PyVal.list []) = .ok ())
  ∧ (∀ ms, Metrics._validate_metrics (PyVal.list ms) = .ok ()
        ↔ ∀ m ∈ ms, Metrics._validate_single_metric m = .ok ())
  ∧ (∀ m, isPyList m = false →
        (Metrics._validate_metrics m = .ok ()
          ↔ Metrics._validate_single_metric m = .ok ()))
  ∧ (∀ ms1 m ms2 ex, (∀ x ∈ ms1, Metrics._validate_single_metric x = .ok ()) →
        Metrics._validate_single_metric m = .error ex →
        Metrics._validate_metrics (PyVal.list (ms1 ++ m :: ms2))
          = .error (.badRequest "Bad request" (excMessage ex))) := by
  refine ⟨rfl, ?_, ?_, ?_⟩
  · intro ms
    rw [validate_metrics_list]
    constructor
    · intro hok
      cases h : Metrics.validateList ms with
      | ok u =>
        cases u
        exact (validateList_ok_iff ms).mp h
      | error ex =>
        rw [h] at hok
        simp at hok
    · intro hall
      rw [(validateList_ok_iff ms).mpr hall]
  · intro m hm
    rw [validate_metrics_single m hm]
    cases h : Metrics._validate_single_metric m with
    | ok u =>
      cases u
      simp
    | error ex => simp
  · intro ms1 m ms2 ex h1 h2
    rw [validate_metrics_list, validateList_first_error ms1 m ms2 ex h1 h2]

/-- A metric whose timestamp is text: the timestamp assertion fails with a
bare (message-free) AssertionError. -/
def mBadTs : PyVal :=
  .dict [(.str "name", .str "cpu"), (.str "timestamp", .str "x"),
         (.str "value", .int 1)]

/-- Witness for C8: a single non-list metric is accepted via the
single-object path, and a list whose second element fails aborts with the
first failure even though a valid metric follows. -/
theorem metrics_C8_witness :
    Metrics._validate_metrics mGood = .ok ()
  ∧ Metrics._validate_metrics
      (PyVal.list ([mGood] ++ mBadTs :: [mGood]))
      = .error (.badRequest "Bad request" "") :=
  ⟨(metrics_C8.2.2.1 mGood rfl).mpr rfl,
   metrics_C8.2.2.2 [mGood] mBadTs [mGood] PyExc.assertionError
     (by intro x hx; simp at hx; rw [hx]; rfl) rfl⟩

/-- C4 (amended): a batch containing any invalid metric is rejected as a
whole by a single BadRequest — no partial acceptance — and the description
of that BadRequest is the exception message of the first failing check,
which for a bound violation (a bare assertion) is the empty string and so
identifies neither the triggering field nor the metric index. -/
theorem metrics_C4 :
    (∀ ms, (∃ m ∈ ms, Metrics._validate_single_metric m ≠ .ok ()) →
        ∃ d, Metrics._validate_metrics (PyVal.list ms)
          = .error (.badRequest "Bad request" d))
  ∧ (∀ ms1 m ms2 ex, (∀ x ∈ ms1, Metrics._validate_single_metric x = .ok ()) →
        Metrics._validate_single_metric m = .error ex →
        Metrics._validate_metrics (PyVal.list (ms1 ++ m :: ms2))
          = .error (.badRequest "Bad request" (excMessage ex))) := by
  constructor
  · intro ms hbad
    cases h : Metrics.validateList ms with
    | ok u =>
      exfalso
      obtain ⟨m, hm, hne⟩ := hbad
      cases u
      exact hne ((validateList_ok_iff ms).mp h m hm)
    | error ex =>
      refine ⟨excMessage ex, ?_⟩
      rw [validate_metrics_list, h]
  · intro ms1 m ms2 ex h1 h2
    rw [validate_metrics_list, validateList_first_error ms1 m ms2 ex h1 h2]

/-- A 65-character name, one past the bound. -/
def name65 : String := String.mk (List.replicate 65 'a')

/-- C4 counterexample: the batch whose only metric has a 65-character name
is rejected, but the BadRequest description is the empty message of the
bare assertion failure — it contains neither the field name "name" nor the
index "0" of the violating metric. -/
theorem metrics_C4_counterexample :
    Metrics._validate_metrics (PyVal.list
        [PyVal.dict [(.str "name", .str name65), (.str "timestamp", .int 1),
                     (.str "value", .int 1)]])
      = .error (.badRequest "Bad request" "")
  ∧ strContains "" "name" = false
  ∧ strContains "" "0" = false :=
  ⟨rfl, rfl, rfl⟩

/-- Witness for C4 at a concrete one-element batch with a text timestamp. -/
theorem metrics_C4_witness :
    Metrics._validate_metrics (PyVal.list ([] ++ mBadTs :: []))
      = .error (.badRequest "Bad request" "") :=
  metrics_C4.2 [] mBadTs [] PyExc.assertionError (by simp) rfl

/-- C10: every exception raised while checking the metrics — a metric that
is not a mapping, a missing required key, a failed bound assertion — is
caught by `_validate_metrics` and converted into a BadRequest client error;
no validation failure surfaces as any other error kind.  The concrete
conjuncts evaluate the non-mapping and missing-key cases (the Python 2
message of `KeyError(k)` is the key itself). -/
theorem metrics_C10 :
    (∀ metrics, Metrics._validate_metrics metrics = .ok ()
        ∨ ∃ d, Metrics._validate_metrics metrics
            = .error (.badRequest "Bad request" d))
  ∧ (Metrics._validate_metrics (PyVal.int 3)
      = .error (.badRequest "Bad request" "object is not subscriptable"))
  ∧ (Metrics._validate_metrics (PyVal.dict [])
      = .error (.badRequest "Bad request" "name"))
  ∧ (Metrics._validate_metrics (PyVal.dict [(.str "name", .str "x")])
      = .error (.badRequest "Bad request" "timestamp"))
  ∧ (Metrics._validate_metrics
        (PyVal.dict [(.str "name", .str "x"), (.str "timestamp", .int 1)])
      = .error (.badRequest "Bad request" "value")) :=
  ⟨validate_metrics_cases, rfl, rfl, rfl, rfl⟩

/-- A metric ready for queue submission: the original metric plus the
attached tenant id and region (spec section 3, TransformedMetric). -/
structure TransformedMetric where
  metric : PyVal
  tenant_id : String
  region : String

/-- Modelled from the spec: the metrics transform produced by
`metrics_transform_factory.create_metrics_transform` is not part of the
sources; per spec section 4.2 it attaches the tenant id and the region to
each element of the validated batch, preserves every other field, and
produces a new sequence without mutating the input. -/
def metrics_transform (metrics : List PyVal) (tenant_id region : String) :
    List TransformedMetric :=
  metrics.map (fun m => { metric := m, tenant_id := tenant_id, region := region })

/-- A posted body is either a single metric or a list of metrics; a single
object is treated as a one-element batch. -/
def asBatch : PyVal → List PyVal
  | .list ms => ms
  | m => [m]

/-- Outcome stipulated for the message queue collaborator on this request:
the batch send either succeeds or raises a `MessageQueueException` carrying
the given message (the interface declared by the source imports and spec
section 6). -/
inductive QueueResult where
  | ok : QueueResult
  | queueError : String → QueueResult

/-- Modelled from the spec: the outcome of `helpers.read_http_resource` —
the parsed JSON body, or a BadRequest for an unreadable body (the helpers
module is not part of the sources). -/
inductive BodyResult where
  | ok : PyVal → BodyResult
  | malformed : String → BodyResult

/-- Modelled from the spec (section 4.5 step 2): the outcome of
`helpers.get_x_tenant_or_tenant_id` — the effective tenant id, or
BadInput/Forbidden when delegation is mismatched or not permitted. -/
inductive TenantResult where
  | ok : String → TenantResult
  | badInput : String → TenantResult
  | forbidden : String → TenantResult

/-- Pipeline phases of the controller, recorded in the order they are
entered during one request. -/
inductive Event where
  | contentTypeCheck
  | authCheck
  | readBody
  | validateBody
  | resolveTenant
  | transformMetrics
  | queueSend
  | queryNormalize
  | repoCall
  deriving DecidableEq, Repr

/-- Modelled from the spec: the per-request outcomes of the collaborators
invoked by the POST handler (the helpers module, the tenant resolution and
the queue driver are not part of the sources). -/
structure PostRequest where
  contentTypeOk : Bool
  authOk : Bool
  body : BodyResult
  tenant : TenantResult
  queue : QueueResult

/-- What one run of the POST handler produced: the HTTP result (status on
success, falcon error otherwise), the phases entered, and the transformed
batch handed to the queue client when the send was invoked. -/
structure PostOutcome where
  result : Except HTTPError String
  events : List Event
  sent : Option (List TransformedMetric)

/-- `Metrics._send_metrics` (source lines 83-90): a `MessageQueueException`
from the batch send is caught and re-raised as
`falcon.HTTPServiceUnavailable('Service unavailable', ex.message, 60)` —
the numeric retry-after hint is 60. -/
def Metrics._send_metrics (q : QueueResult) : Except HTTPError Unit :=
  match q with
  | .ok => .ok ()
  | .queueError msg => .error (.serviceUnavailable "Service unavailable" msg 60)

/-- `Metrics.do_post_metrics` (source lines 149-162): content-type check,
authorization, body read, batch validation, tenant resolution, transform,
queue send, in that order, and a 204 status on success.  The failure shape
of each absent helper is modelled from the spec (BadRequest for a bad
content type or unreadable body, Unauthorized for failed authorization). -/
def Metrics.do_post_metrics (region : String) (req : PostRequest) : PostOutcome :=
  if req.contentTypeOk = false then
    { result := .error (.badRequest "Bad request" "Bad content type"),
      events := [.contentTypeCheck], sent := Option.none }
  else if req.authOk = false then
    { result := .error (.unauthorized "Unauthorized"),
      events := [.contentTypeCheck, .authCheck], sent := Option.none }
  else
    match req.body with
    | .malformed m =>
        { result := .error (.badRequest "Bad request" m),
          events := [.contentTypeCheck, .authCheck, .readBody],
          sent := Option.none }
    | .ok metrics =>
      match Metrics._validate_metrics metrics with
      | .error e =>
          { result := .error e,
            events := [.contentTypeCheck, .authCheck, .readBody, .validateBody],
            sent := Option.none }
      | .ok _ =>
        match req.tenant with
        | .badInput m =>
            { result := .error (.badRequest "Bad request" m),
              events := [.contentTypeCheck, .authCheck, .readBody, .validateBody,
                         .resolveTenant],
              sent := Option.none }
        | .forbidden m =>
            { result := .error (.forbidden m),
              events := [.contentTypeCheck, .authCheck, .readBody, .validateBody,
                         .resolveTenant],
              sent := Option.none }
        | .ok tenant_id =>
          match Metrics._send_metrics req.queue with
          | .error e =>
              { result := .error e,
                events := [.contentTypeCheck, .authCheck, .readBody, .validateBody,
                           .resolveTenant, .transformMetrics, .queueSend],
                sent := some (metrics_transform (asBatch metrics) tenant_id region) }
          | .ok _ =>
              { result := .ok HTTP_204,
                events := [.contentTypeCheck, .authCheck, .readBody, .validateBody,
                           .resolveTenant, .transformMetrics, .queueSend],
                sent := some (metrics_transform (asBatch metrics) tenant_id region) }

/-- Response envelope produced by the pagination helpers: the page wrapped
under an elements field plus an optional next link. -/
structure Envelope (α : Type) where
  elements : List α
  nextLink : Option String

/-- Modelled from the spec (section 4.4): `helpers.paginate` and its
measurement/statistics variants are not part of the sources; per the spec
they wrap the page and emit a next link — the request URI with its offset
parameter set to a cursor derived from the last element by an injected
extractor — exactly when the page is full, that is, its length equals the
limit; a shorter page omits the link.  The three variants share this rule
and differ only in the cursor extractor. -/
def paginate {α : Type} (cursorOf : α → String) (page : List α) (uri : String)
    (limit : Nat) : Envelope α :=
  { elements := page,
    nextLink :=
      if page.length = limit then
        some (uri ++ "?offset="
          ++ (match page.getLast? with
              | some x => cursorOf x
              | Option.none => ""))
      else Option.none }

/-- Outcome of one query-normalization helper: the extracted value or a
BadRequest naming the offending parameter (spec section 4.3: every parse
failure surfaces as a single BadInput). -/
inductive QOut (α : Type) where
  | ok : α → QOut α
  | badInput : String → QOut α

/-- Outcome stipulated for the metrics repository on this request; rows are
abstracted as opaque strings. -/
inductive RepoOut where
  | ok : List String → RepoOut
  | repoError : String → RepoOut

/-- Modelled from the spec: outcomes of the query-normalization helpers and
of the repository for one GET request (the helpers module and repository
drivers are not part of the sources); the handler consults the fields its
source lines mention, in source order. -/
structure GetRequest where
  authOk : Bool
  tenantId : String
  name : QOut (Option String)
  nameValid : QOut Unit
  dims : QOut (List (String × String))
  dimsValid : QOut Unit
  startTs : QOut Int
  endTs : QOut (Option Int)
  statistics : QOut (List String)
  period : QOut Nat
  offset : Option String
  limit : QOut Nat
  mergeParam : Option String
  mergeConv : QOut Bool
  repo : RepoOut
  uri : String

/-- What one run of a GET handler produced: the serialized envelope with
its status, or a falcon error; plus the phases entered. -/
structure GetOutcome where
  result : Except HTTPError (Envelope String × String)
  events : List Event

/-- Modelled from the spec (sections 4.5 and 7):
`resource.resource_try_catch_block` is not part of the sources; per the
spec any exception escaping repository access is mapped to a generic
internal error that leaks no detail. -/
def resource_try_catch {α : Type} (r : RepoOut) (k : List String → α) :
    Except HTTPError α :=
  match r with
  | .ok rows => .ok (k rows)
  | .repoError _ =>
      .error (.internalServerError "Service unavailable" "")

/-- `Metrics._list_metrics` (source lines 92-101): repository call under the
try/catch decorator, result paginated against the request URI and limit.
The tenant, name, dimensions and offset arguments of the source only
parametrize the repository query, whose outcome is stipulated in `repo`. -/
def Metrics._list_metrics (repo : RepoOut) (uri : String) (limit : Nat) :
    Except HTTPError (Envelope String) :=
  resource_try_catch repo (fun rows => paginate id rows uri limit)

/-- `Metrics._list_metric_names` (source lines 103-112). -/
def Metrics._list_metric_names (repo : RepoOut) (uri : String) (limit : Nat) :
    Except HTTPError (Envelope String) :=
  resource_try_catch repo (fun rows => paginate id rows uri limit)

/-- `Metrics._measurement_list` (source lines 114-129): as `_list_metrics`
but paginating with the measurement cursor variant. -/
def Metrics._measurement_list (repo : RepoOut) (uri : String) (limit : Nat) :
    Except HTTPError (Envelope String) :=
  resource_try_catch repo (fun rows => paginate id rows uri limit)

/-- `Metrics._metric_statistics` (source lines 131-147): as `_list_metrics`
but paginating with the statistics cursor variant. -/
def Metrics._metric_statistics (repo : RepoOut) (uri : String) (limit : Nat) :
    Except HTTPError (Envelope String) :=
  resource_try_catch repo (fun rows => paginate id rows uri limit)

/-- `Metrics._get_boolean_merge_metrics_flag` (source lines 247-252): when
the query parameter was present, convert it with `helpers.str_2_bool`
(modelled as the stipulated outcome `conv`, BadInput on an unparseable
value per spec section 4.3); otherwise return false. -/
def Metrics._get_boolean_merge_metrics_flag (p : Option String)
    (conv : QOut Bool) : QOut Bool :=
  match p with
  | some _ => conv
  | Option.none => .ok false

/-- `Metrics.do_get_metrics` (source lines 164-177): authorization, then
tenant id, query name, name validation, dimensions, dimension validation,
offset, limit, then the repository call and a 200 with the serialized
envelope. -/
def Metrics.do_get_metrics (req : GetRequest) : GetOutcome :=
  if req.authOk = false then
    { result := .error (.unauthorized "Unauthorized"), events := [.authCheck] }
  else
    match req.name with
    | .badInput m =>
        { result := .error (.badRequest "Bad request" m),
          events := [.authCheck, .queryNormalize] }
    | .ok _ =>
    match req.nameValid with
    | .badInput m =>
        { result := .error (.badRequest "Bad request" m),
          events := [.authCheck, .queryNormalize] }
    | .ok _ =>
    match req.dims with
    | .badInput m =>
        { result := .error (.badRequest "Bad request" m),
          events := [.authCheck, .queryNormalize] }
    | .ok _ =>
    match req.dimsValid with
    | .badInput m =>
        { result := .error (.badRequest "Bad request" m),
          events := [.authCheck, .queryNormalize] }
    | .ok _ =>
    match req.limit with
    | .badInput m =>
        { result := .error (.badRequest "Bad request" m),
          events := [.authCheck, .queryNormalize] }
    | .ok limit =>
      match Metrics._list_metrics req.repo req.uri limit with
      | .error e =>
          { result := .error e,
            events := [.authCheck, .queryNormalize, .repoCall] }
      | .ok env =>
          { result := .ok (env, HTTP_200),
            events := [.authCheck, .queryNormalize, .repoCall] }

/-- `Metrics.do_get_metric_names` (source lines 205-216): authorization,
tenant id, dimensions, dimension validation, offset, limit, repository
call, 200. -/
def Metrics.do_get_metric_names (req : GetRequest) : GetOutcome :=
  if req.authOk = false then
    { result := .error (.unauthorized "Unauthorized"), events := [.authCheck] }
  else
    match req.dims with
    | .badInput m =>
        { result := .error (.badRequest "Bad request" m),
          events := [.authCheck, .queryNormalize] }
    | .ok _ =>
    match req.dimsValid with
    | .badInput m =>
        { result := .error (.badRequest "Bad request" m),
          events := [.authCheck, .queryNormalize] }
    | .ok _ =>
    match req.limit with
    | .badInput m =>
        { result := .error (.badRequest "Bad request" m),
          events := [.authCheck, .queryNormalize] }
    | .ok limit =>
      match Metrics._list_metric_names req.repo req.uri limit with
      | .error e =>
          { result := .error e,
            events := [.authCheck, .queryNormalize, .repoCall] }
      | .ok env =>
          { result := .ok (env, HTTP_200),
            events := [.authCheck, .queryNormalize, .repoCall] }

/-- `Metrics.do_get_measurements` (source lines 179-203): authorization,
tenant id, required name, name validation, dimensions, dimension
validation, start and end timestamps, offset, limit, merge flag, repository
call, 200. -/
def Metrics.do_get_measurements (req : GetRequest) : GetOutcome :=
  if req.authOk = false then
    { result := .error (.unauthorized "Unauthorized"), events := [.authCheck] }
  else
    match req.name with
    | .badInput m =>
        { result := .error (.badRequest "Bad request" m),
          events := [.authCheck, .queryNormalize] }
    | .ok _ =>
    match req.nameValid with
    | .badInput m =>
        { result := .error (.badRequest "Bad request" m),
          events := [.authCheck, .queryNormalize] }
    | .ok _ =>
    match req.dims with
    | .badInput m =>
        { result := .error (.badRequest "Bad request" m),
          events := [.authCheck, .queryNormalize] }
    | .ok _ =>
    match req.dimsValid with
    | .badInput m =>
        { result := .error (.badRequest "Bad request" m),
          events := [.authCheck, .queryNormalize] }
    | .ok _ =>
    match req.startTs with
    | .badInput m =>
        { result := .error (.badRequest "Bad request" m),
          events := [.authCheck, .queryNormalize] }
    | .ok _ =>
    match req.endTs with
    | .badInput m =>
        { result := .error (.badRequest "Bad request" m),
          events := [.authCheck, .queryNormalize] }
    | .ok _ =>
    match req.limit with
    | .badInput m =>
        { result := .error (.badRequest "Bad request" m),
          events := [.authCheck, .queryNormalize] }
    | .ok limit =>
    match Metrics._get_boolean_merge_metrics_flag req.mergeParam req.mergeConv with
    | .badInput m =>
        { result := .error (.badRequest "Bad request" m),
          events := [.authCheck, .queryNormalize] }
    | .ok _ =>
      match Metrics._measurement_list req.repo req.uri limit with
      | .error e =>
          { result := .error e,
            events := [.authCheck, .queryNormalize, .repoCall] }
      | .ok env =>
          { result := .ok (env, HTTP_200),
            events := [.authCheck, .queryNormalize, .repoCall] }

/-- `Metrics.do_get_statistics` (source lines 218-245): authorization,
tenant id, required name, name validation, dimensions, dimension
validation, start and end timestamps, statistics, period, offset, limit,
merge flag, repository call, 200. -/
def Metrics.do_get_statistics (req : GetRequest) : GetOutcome :=
  if req.authOk = false then
    { result := .error (.unauthorized "Unauthorized"), events := [.authCheck] }
  else
    match req.name with
    | .badInput m =>
        { result := .error (.badRequest "Bad request" m),
          events := [.authCheck, .queryNormalize] }
    | .ok _ =>
    match req.nameValid with
    | .badInput m =>
        { result := .error (.badRequest "Bad request" m),
          events := [.authCheck, .queryNormalize] }
    | .ok _ =>
    match req.dims with
    | .badInput m =>
        { result := .error (.badRequest "Bad request" m),
          events := [.authCheck, .queryNormalize] }
    | .ok _ =>
    match req.dimsValid with
    | .badInput m =>
        { result := .error (.badRequest "Bad request" m),
          events := [.authCheck, .queryNormalize] }
    | .ok _ =>
    match req.startTs with
    | .badInput m =>
        { result := .error (.badRequest "Bad request" m),
          events := [.authCheck, .queryNormalize] }
    | .ok _ =>
    match req.endTs with
    | .badInput m =>
        { result := .error (.badRequest "Bad request" m),
          events := [.authCheck, .queryNormalize] }
    | .ok _ =>
    match req.statistics with
    | .badInput m =>
        { result := .error (.badRequest "Bad request" m),
          events := [.authCheck, .queryNormalize] }
    | .ok _ =>
    match req.period with
    | .badInput m =>
        { result := .error (.badRequest "Bad request" m),
          events := [.authCheck, .queryNormalize] }
    | .ok _ =>
    match req.limit with
    | .badInput m =>
        { result := .error (.badRequest "Bad request" m),
          events := [.authCheck, .queryNormalize] }
    | .ok limit =>
    match Metrics._get_boolean_merge_metrics_flag req.mergeParam req.mergeConv with
    | .badInput m =>
        { result := .error (.badRequest "Bad request" m),
          events := [.authCheck, .queryNormalize] }
    | .ok _ =>
      match Metrics._metric_statistics req.repo req.uri limit with
      | .error e =>
          { result := .error e,
            events := [.authCheck, .queryNormalize, .repoCall] }
      | .ok env =>
          { result := .ok (env, HTTP_200),
            events := [.authCheck, .queryNormalize, .repoCall] }

/-- C2: for every repository page and every positive limit, the paginated
envelope contains a next link exactly when the page length equals the
limit, and omits it when the page is shorter than the limit. -/
theorem metrics_C2 {α : Type} (cursorOf : α → String) (page : List α)
    (uri : String) (limit : Nat) (_hpos : 0 < limit) :
    ((paginate cursorOf page uri limit).nextLink.isSome = true
        ↔ page.length = limit)
  ∧ (page.length < limit →
        (paginate cursorOf page uri limit).nextLink = Option.none) := by
  constructor
  · rw [paginate]
    by_cases h : page.length = limit <;> simp [h]
  · intro hlt
    rw [paginate]
    simp [Nat.ne_of_lt hlt]

/-- Witness for C2: a full page of two rows at limit 2 carries a next link;
a one-row page at limit 2 does not. -/
theorem metrics_C2_witness :
    (paginate id ["a", "b"] "u" 2).nextLink.isSome = true
  ∧ (paginate id ["a"] "u" 2).nextLink = Option.none :=
  ⟨(metrics_C2 id ["a", "b"] "u" 2 (by decide)).1.mpr rfl,
   (metrics_C2 id ["a"] "u" 2 (by decide)).2 (by decide)⟩

/-- A POST request whose every collaborator succeeds. -/
def reqPostOk : PostRequest :=
  { contentTypeOk := true, authOk := true, body := .ok mGood,
    tenant := .ok "t0", queue := .ok }

/-- As `reqPostOk` but the queue send fails. -/
def reqPostQFail : PostRequest :=
  { reqPostOk with queue := .queueError "queue transport failure" }

/-- C3: once content type, authorization, body reading, batch validation
and tenant resolution have succeeded, a queue send failure makes the POST
raise ServiceUnavailable carrying the numeric retry-after hint 60, and a
successful send yields status 204 No Content. -/
theorem metrics_C3 (region : String) (req : PostRequest) (b : PyVal) (t : String)
    (hct : req.contentTypeOk = true) (hauth : req.authOk = true)
    (hbody : req.body = BodyResult.ok b)
    (hval : Metrics._validate_metrics b = .ok ())
    (hten : req.tenant = TenantResult.ok t) :
    (∀ msg, req.queue = QueueResult.queueError msg →
        (Metrics.do_post_metrics region req).result
          = .error (.serviceUnavailable "Service unavailable" msg 60))
  ∧ (req.queue = QueueResult.ok →
        (Metrics.do_post_metrics region req).result = .ok HTTP_204) := by
  constructor
  · intro msg hq
    simp [Metrics.do_post_metrics, hct, hauth, hbody, hval, hten, hq,
      Metrics._send_metrics]
  · intro hq
    simp [Metrics.do_post_metrics, hct, hauth, hbody, hval, hten, hq,
      Metrics._send_metrics]

/-- Witness for C3 at two concrete requests. -/
theorem metrics_C3_witness :
    (Metrics.do_post_metrics "r0" reqPostQFail).result
      = .error (.serviceUnavailable "Service unavailable"
                  "queue transport failure" 60)
  ∧ (Metrics.do_post_metrics "r0" reqPostOk).result = .ok HTTP_204 :=
  ⟨(metrics_C3 "r0" reqPostQFail mGood "t0" rfl rfl rfl rfl rfl).1
      "queue transport failure" rfl,
   (metrics_C3 "r0" reqPostOk mGood "t0" rfl rfl rfl rfl rfl).2 rfl⟩

/-- C5: the queue send is invoked only when content-type validation,
authorization and full batch validation have all succeeded, and any failure
occurring before the send is reported as a client (4xx) error. -/
theorem metrics_C5 (region : String) (req : PostRequest) :
    ((Metrics.do_post_metrics region req).sent.isSome = true →
        req.contentTypeOk = true ∧ req.authOk = true ∧
        ∃ b, req.body = BodyResult.ok b ∧ Metrics._validate_metrics b = .ok ())
  ∧ (∀ e, (Metrics.do_post_metrics region req).result = .error e →
        (Metrics.do_post_metrics region req).sent = Option.none →
        isClientError e = true) := by
  cases hct : req.contentTypeOk
  · simp [Metrics.do_post_metrics, hct, isClientError]
  cases hauth : req.authOk
  · simp [Metrics.do_post_metrics, hct, hauth, isClientError]
  cases hbody : req.body with
  | malformed m => simp [Metrics.do_post_metrics, hct, hauth, hbody, isClientError]
  | ok b =>
    cases hval : Metrics._validate_metrics b with
    | error e =>
      rcases validate_metrics_cases b with hok | ⟨d, hbr⟩
      · rw [hval] at hok
        cases hok
      · rw [hval] at hbr
        cases hbr
        simp [Metrics.do_post_metrics, hct, hauth, hbody, hval, isClientError]
    | ok u =>
      cases u
      cases hten : req.tenant with
      | badInput m =>
        simp [Metrics.do_post_metrics, hct, hauth, hbody, hval, hten, isClientError]
      | forbidden m =>
        simp [Metrics.do_post_metrics, hct, hauth, hbody, hval, hten, isClientError]
      | ok t =>
        cases hq : req.queue with
        | ok =>
          simp [Metrics.do_post_metrics, hct, hauth, hbody, hval, hten, hq,
            Metrics._send_metrics]
        | queueError msg =>
          simp [Metrics.do_post_metrics, hct, hauth, hbody, hval, hten, hq,
            Metrics._send_metrics]

/-- Witness for C5: at the all-success request the queue send happened, so
the guard conditions must all hold. -/
theorem metrics_C5_witness :
    reqPostOk.contentTypeOk = true ∧ reqPostOk.authOk = true ∧
      ∃ b, reqPostOk.body = BodyResult.ok b
        ∧ Metrics._validate_metrics b = .ok () :=
  (metrics_C5 "r0" reqPostOk).1 rfl

/-- C6: the transform attaches exactly the given tenant id and region to
every element, and the underlying metric of each output element equals the
corresponding input: mapping the output back to its metrics recovers the
input batch unchanged, so the input sequence is not mutated. -/
theorem metrics_C6 (ms : List PyVal) (t r : String) :
    (∀ tm ∈ metrics_transform ms t r, tm.tenant_id = t ∧ tm.region = r)
  ∧ (metrics_transform ms t r).map TransformedMetric.metric = ms := by
  constructor
  · intro tm htm
    rcases List.mem_map.mp htm with ⟨m, hm, rfl⟩
    exact ⟨rfl, rfl⟩
  · rw [metrics_transform, List.map_map]
    have hcomp : (TransformedMetric.metric
        ∘ fun m => ({ metric := m, tenant_id := t, region := r }
                      : TransformedMetric)) = id := rfl
    rw [hcomp, List.map_id]

/-- Witness for C6 at a one-element batch. -/
theorem metrics_C6_witness :
    ((metrics_transform [PyVal.int 1] "t0" "r0").map TransformedMetric.metric
        = [PyVal.int 1])
  ∧ ∀ tm ∈ metrics_transform [PyVal.int 1] "t0" "r0",
      tm.tenant_id = "t0" ∧ tm.region = "r0" :=
  ⟨(metrics_C6 [PyVal.int 1] "t0" "r0").2, (metrics_C6 [PyVal.int 1] "t0" "r0").1⟩

/-- As `reqPostOk` but authorization fails. -/
def reqPostNoAuth : PostRequest :=
  { reqPostOk with authOk := false }

/-- A GET request whose authorization fails (every other collaborator would
succeed). -/
def reqGetNoAuth : GetRequest :=
  { authOk := false, tenantId := "t0", name := .ok Option.none,
    nameValid := .ok (), dims := .ok [], dimsValid := .ok (), startTs := .ok 0,
    endTs := .ok Option.none, statistics := .ok ["avg"], period := .ok 60,
    offset := Option.none, limit := .ok 10, mergeParam := Option.none,
    mergeConv := .ok false, repo := .ok [], uri := "u" }

/-- C7: for each of the five operations, an authorization failure yields an
Unauthorized outcome and stops processing — no query normalization, no
repository call, no queue send.  (For the POST operation the source checks
the content type before authorization, so that check must have passed for
authorization to be evaluated at all.) -/
theorem metrics_C7 (region : String) (preq : PostRequest) (greq : GetRequest)
    (hpc : preq.contentTypeOk = true) (hpa : preq.authOk = false)
    (hga : greq.authOk = false) :
    ((Metrics.do_post_metrics region preq).result
        = .error (.unauthorized "Unauthorized")
      ∧ (Metrics.do_post_metrics region preq).sent = Option.none
      ∧ Event.validateBody ∉ (Metrics.do_post_metrics region preq).events
      ∧ Event.queueSend ∉ (Metrics.do_post_metrics region preq).events)
  ∧ ((Metrics.do_get_metrics greq).result = .error (.unauthorized "Unauthorized")
      ∧ Event.queryNormalize ∉ (Metrics.do_get_metrics greq).events
      ∧ Event.repoCall ∉ (Metrics.do_get_metrics greq).events)
  ∧ ((Metrics.do_get_metric_names greq).result
        = .error (.unauthorized "Unauthorized")
      ∧ Event.queryNormalize ∉ (Metrics.do_get_metric_names greq).events
      ∧ Event.repoCall ∉ (Metrics.do_get_metric_names greq).events)
  ∧ ((Metrics.do_get_measurements greq).result
        = .error (.unauthorized "Unauthorized")
      ∧ Event.queryNormalize ∉ (Metrics.do_get_measurements greq).events
      ∧ Event.repoCall ∉ (Metrics.do_get_measurements greq).events)
  ∧ ((Metrics.do_get_statistics greq).result
        = .error (.unauthorized "Unauthorized")
      ∧ Event.queryNormalize ∉ (Metrics.do_get_statistics greq).events
      ∧ Event.repoCall ∉ (Metrics.do_get_statistics greq).events) := by
  refine ⟨?_, ?_, ?_, ?_, ?_⟩ <;>
    simp [Metrics.do_post_metrics, Metrics.do_get_metrics,
      Metrics.do_get_metric_names, Metrics.do_get_measurements,
      Metrics.do_get_statistics, hpc, hpa, hga]

/-- Witness for C7 at concrete unauthorized requests. -/
theorem metrics_C7_witness :
    (Metrics.do_post_metrics "r0" reqPostNoAuth).result
      = .error (.unauthorized "Unauthorized")
  ∧ (Metrics.do_get_metrics reqGetNoAuth).result
      = .error (.unauthorized "Unauthorized")
  ∧ (Metrics.do_get_statistics reqGetNoAuth).result
      = .error (.unauthorized "Unauthorized") := by
  have h := metrics_C7 "r0" reqPostNoAuth reqGetNoAuth rfl rfl rfl
  exact ⟨h.1.1, h.2.1.1, h.2.2.2.2.1⟩

/-- A POST request with an invalid body (a metric missing every field) and
a tenant resolution that would be refused. -/
def reqPostBadBodyBadTenant : PostRequest :=
  { contentTypeOk := true, authOk := true, body := .ok (PyVal.dict []),
    tenant := .forbidden "cross tenant submission refused", queue := .ok }

/-- C9 counterexample: on a request whose body is invalid and whose tenant
delegation would be refused, the handler reports the validation error and
never enters tenant resolution — the body was normalized and validated
while the effective tenant was never resolved, so tenant resolution (step
2) does not happen before body validation (step 3). -/
theorem metrics_C9_counterexample :
    Event.validateBody
        ∈ (Metrics.do_post_metrics "r0" reqPostBadBodyBadTenant).events
  ∧ Event.resolveTenant
        ∉ (Metrics.do_post_metrics "r0" reqPostBadBodyBadTenant).events
  ∧ (Metrics.do_post_metrics "r0" reqPostBadBodyBadTenant).result
      = .error (.badRequest "Bad request" "name") := by
  refine ⟨?_, ?_, rfl⟩ <;> decide

/-- C9 (amended): the POST pipeline reads and validates the body before
resolving the effective tenant — whenever tenant resolution is entered the
body has already passed validation, and the validation phase strictly
precedes the resolution phase in the recorded order. -/
theorem metrics_C9 (region : String) (req : PostRequest)
    (h : Event.resolveTenant ∈ (Metrics.do_post_metrics region req).events) :
    (∃ b, req.body = BodyResult.ok b ∧ Metrics._validate_metrics b = .ok ())
  ∧ ∃ i j, i < j
      ∧ (Metrics.do_post_metrics region req).events.get? i
          = some Event.validateBody
      ∧ (Metrics.do_post_metrics region req).events.get? j
          = some Event.resolveTenant := by
  cases hct : req.contentTypeOk
  · rw [Metrics.do_post_metrics] at h ⊢
    simp [hct] at h
  cases hauth : req.authOk
  · rw [Metrics.do_post_metrics] at h ⊢
    simp [hct, hauth] at h
  cases hbody : req.body with
  | malformed m =>
    rw [Metrics.do_post_metrics] at h ⊢
    simp [hct, hauth, hbody] at h
  | ok b =>
    cases hval : Metrics._validate_metrics b with
    | error e =>
      rw [Metrics.do_post_metrics] at h ⊢
      simp [hct, hauth, hbody, hval] at h
    | ok u =>
      cases u
      refine ⟨⟨b, rfl, hval⟩, 3, 4, by decide, ?_, ?_⟩ <;>
        cases hten : req.tenant <;>
          cases hq : req.queue <;>
            simp [Metrics.do_post_metrics, hct, hauth, hbody, hval, hten, hq,
              Metrics._send_metrics]

/-- Witness for C9 at the all-success request. -/
theorem metrics_C9_witness :
    ∃ b, reqPostOk.body = BodyResult.ok b
      ∧ Metrics._validate_metrics b = .ok () :=
  (metrics_C9 "r0" reqPostOk (by decide)).1

end Monasca
